import Mathlib

/-!
Shallow embedding of the svm-mcp tool server (src/index.ts).

The program registers six MCP tools, each an async handler closing over one
of two Connection objects (testnet / mainnet).  Every handler takes an
address string, may construct PublicKey values, performs one or two RPC
calls, and returns a response envelope of content blocks (or lets an
exception propagate).  We embed the handlers as pure functions from an
external-world record (the RPC methods of the two connections) and the
address string to a pair of the outcome (a returned envelope or a
propagated thrown value) and the trace of RPC calls the handler issued.
-/

/-- A value thrown by a failing call.  JavaScript can throw any value; the
catch branches in the source render it with the template
`error instanceof Error ? error.message : String(error)`, so we keep an
Error instance (with its message) distinct from any other thrown value
(kept by its string conversion). -/
inductive Thrown where
  | error (message : String)
  | other (stringValue : String)
deriving DecidableEq

/-- Rendering of a thrown value as done by every catch branch in the source:
the message of an Error instance, the string conversion otherwise. -/
def Thrown.render : Thrown → String
  | .error m => m
  | .other s => s

/-- The base58 alphabet used by the bs58 decoder inside the PublicKey
constructor of @solana/web3.js. -/
def base58Alphabet : String :=
  "123456789ABCDEFGHJKLMNPQRSTUVWXYZabcdefghijkmnopqrstuvwxyz"

/-- Index of a character in a character list, or none. -/
def charIndexFrom (c : Char) : List Char → Nat → Option Nat
  | [], _ => none
  | a :: rest, i => if a = c then some i else charIndexFrom c rest (i + 1)

/-- The value of one base58 digit, or none for a character outside the
alphabet. -/
def base58Index (c : Char) : Option Nat :=
  charIndexFrom c base58Alphabet.toList 0

/-- Digit values of a character list, or none if any character is not a
base58 digit. -/
def base58Digits : List Char → Option (List Nat)
  | [] => some []
  | c :: rest =>
    match base58Index c, base58Digits rest with
    | some d, some ds => some (d :: ds)
    | _, _ => none

/-- Count of leading occurrences of a character. -/
def countLeadingChar (c : Char) : List Char → Nat
  | [] => 0
  | a :: rest => if a = c then countLeadingChar c rest + 1 else 0

/-- Big-endian bytes of a natural number, least significant last; fuel bounds
the recursion depth (a base58 string of n digits decodes below 256 ^ n, so
passing the digit count as fuel is exact). -/
def natToBytesBE : Nat → Nat → List Nat
  | 0, _ => []
  | _ + 1, 0 => []
  | fuel + 1, n => natToBytesBE fuel (n / 256) ++ [n % 256]

/-- bs58.decode: the byte sequence a base58 string denotes, or none when a
character is outside the alphabet (bs58 then throws).  Leading occurrences
of the first alphabet character encode leading zero bytes; the remaining
value is the base-58 number of all digits. -/
def bs58Decode (s : String) : Option (List Nat) :=
  let chars := s.toList
  match base58Digits chars with
  | none => none
  | some digits =>
    let n := digits.foldl (fun acc d => acc * 58 + d) 0
    some (List.replicate (countLeadingChar (Char.ofNat 49) chars) 0 ++
      natToBytesBE chars.length n)

/-- A public key as the PublicKey class stores it: the 32 decoded bytes. -/
structure PublicKey where
  bytes : List Nat
deriving DecidableEq

/-- The PublicKey constructor applied to a string: bs58-decode it (throwing
the bs58 error on a character outside the alphabet) and require exactly 32
bytes, otherwise throw.  The messages are the ones thrown by bs58 and by the
constructor in @solana/web3.js. -/
def newPublicKey (s : String) : Except Thrown PublicKey :=
  match bs58Decode s with
  | none => .error (.error "Non-base58 character")
  | some bytes =>
    if bytes.length = 32 then .ok ⟨bytes⟩
    else .error (.error "Invalid public key input")

/-- JSON values, the shape of the records the RPC client returns; a null
transaction record is Json.null. -/
inductive Json where
  | null
  | bool (b : Bool)
  | num (n : Int)
  | str (s : String)
  | arr (elems : List Json)
  | obj (fields : List (String × Json))

/-- Escaping of one character inside a JSON string literal. -/
def jsonEscapeChar (c : Char) : String :=
  if c = Char.ofNat 34 then "\\\""
  else if c = Char.ofNat 92 then "\\\\"
  else if c = Char.ofNat 10 then "\\n"
  else if c = Char.ofNat 13 then "\\r"
  else if c = Char.ofNat 9 then "\\t"
  else String.singleton c

/-- Escaping of a JSON string literal body. -/
def jsonEscape (s : String) : String :=
  String.join (s.toList.map jsonEscapeChar)

mutual

/-- JSON.stringify on the modelled JSON values. -/
def Json.stringify : Json → String
  | .null => "null"
  | .bool true => "true"
  | .bool false => "false"
  | .num n => toString n
  | .str s => "\"" ++ jsonEscape s ++ "\""
  | .arr xs => "[" ++ Json.stringifyArr xs ++ "]"
  | .obj fs => "\x7b" ++ Json.stringifyObj fs ++ "\x7d"

/-- Comma-separated serialization of array elements. -/
def Json.stringifyArr : List Json → String
  | [] => ""
  | [x] => Json.stringify x
  | x :: rest => Json.stringify x ++ "," ++ Json.stringifyArr rest

/-- Comma-separated serialization of object fields. -/
def Json.stringifyObj : List (String × Json) → String
  | [] => ""
  | [(k, v)] => "\"" ++ jsonEscape k ++ "\":" ++ Json.stringify v
  | (k, v) :: rest =>
    "\"" ++ jsonEscape k ++ "\":" ++ Json.stringify v ++ "," ++
      Json.stringifyObj rest

end

/-- The two networks the process binds at startup, one Connection each. -/
inductive NetId where
  | testnet
  | mainnet
deriving DecidableEq

/-- The RPC endpoint URL each Connection object is constructed with. -/
def connectionUrl : NetId → String
  | .testnet => "https://rpc.testnet.soo.network/rpc"
  | .mainnet => "https://rpc.mainnet.soo.network/rpc"

/-- One entry of the list getSignaturesForAddress returns; the handlers read
only the signature field, so the other fields of the record (slot, err,
memo, blockTime) are not modelled. -/
structure SignatureInfo where
  signature : String
deriving DecidableEq

/-- One RPC call as issued by a handler, tagged by the network of the
Connection object whose method was invoked. -/
inductive RpcCall where
  | getBalance (net : NetId) (key : PublicKey)
  | getSignaturesForAddress (net : NetId) (key : PublicKey) (limit : Nat)
  | getConfirmedTransaction (net : NetId) (signature : String)
  | getTokenAccountsByOwner (net : NetId) (owner : PublicKey)
      (programId : PublicKey)
deriving DecidableEq

/-- The network whose endpoint an RPC call goes to. -/
def RpcCall.net : RpcCall → NetId
  | .getBalance n _ => n
  | .getSignaturesForAddress n _ _ => n
  | .getConfirmedTransaction n _ => n
  | .getTokenAccountsByOwner n _ _ => n

/-- The external world behind the two Connection objects: each RPC method,
indexed by which network endpoint it is bound to, either returns a value or
throws. -/
structure Env where
  getBalance : NetId → PublicKey → Except Thrown Nat
  getSignaturesForAddress :
    NetId → PublicKey → Nat → Except Thrown (List SignatureInfo)
  getConfirmedTransaction : NetId → String → Except Thrown Json
  getTokenAccountsByOwner :
    NetId → PublicKey → PublicKey → Except Thrown Json

/-- One content block of a tool response: a kind tag and a payload string. -/
structure ContentBlock where
  type : String
  text : String
deriving DecidableEq

/-- A tool response envelope: an ordered sequence of content blocks. -/
structure ToolResponse where
  content : List ContentBlock
deriving DecidableEq

/-- The envelope every return site of the source builds: a single content
block of type text. -/
def textResponse (s : String) : ToolResponse :=
  ⟨[⟨"text", s⟩]⟩

/-- Marker for the branch where signatures[0] would be accessed out of
bounds; the source performs the unchecked access, so this value being
unreachable is exactly the in-bounds property. -/
def outOfBoundsMarker : ToolResponse :=
  ⟨[]⟩

/-- The fixed token-program identifier string passed to new PublicKey inside
both account-tokens handlers. -/
def tokenProgramAddress : String :=
  "TokenkegQfeZyiNwAJbNbGKPFXCWuBvf9Ss623VQ5DA"

/-- Outcome of one handler invocation: the resolved response envelope or the
propagated thrown value, together with the trace of RPC calls issued. -/
def HandlerResult : Type :=
  Except Thrown ToolResponse × List RpcCall

/-- Handler of the get-soon-testnet-balance tool: construct the PublicKey
(uncaught on failure), fetch the balance on the testnet connection
(uncaught on failure), format it. -/
def getSoonTestnetBalance (env : Env) (address : String) : HandlerResult :=
  match newPublicKey address with
  | .error e => (.error e, [])
  | .ok key =>
    match env.getBalance .testnet key with
    | .error e => (.error e, [.getBalance .testnet key])
    | .ok balance =>
      (.ok (textResponse ("Balance: " ++ toString balance)),
        [.getBalance .testnet key])

/-- Handler of the get-soon-mainnet-balance tool, identical but on the
mainnet connection. -/
def getSoonMainnetBalance (env : Env) (address : String) : HandlerResult :=
  match newPublicKey address with
  | .error e => (.error e, [])
  | .ok key =>
    match env.getBalance .mainnet key with
    | .error e => (.error e, [.getBalance .mainnet key])
    | .ok balance =>
      (.ok (textResponse ("Balance: " ++ toString balance)),
        [.getBalance .mainnet key])

/-- Handler of the get-soon-testnet-last-transaction tool: inside a try
block, construct the PublicKey, fetch signatures with limit 1, return the
fixed sentinel on an empty list, otherwise fetch the transaction for the
first signature and serialize it; any throw is caught and rendered as an
error text block. -/
def getSoonTestnetLastTransaction (env : Env) (address : String) :
    HandlerResult :=
  match newPublicKey address with
  | .error e =>
    (.ok (textResponse ("Error getting transaction: " ++ e.render)), [])
  | .ok key =>
    match env.getSignaturesForAddress .testnet key 1 with
    | .error e =>
      (.ok (textResponse ("Error getting transaction: " ++ e.render)),
        [.getSignaturesForAddress .testnet key 1])
    | .ok signatures =>
      if signatures.length = 0 then
        (.ok (textResponse "No transactions found for this address"),
          [.getSignaturesForAddress .testnet key 1])
      else
        match signatures[0]? with
        | none =>
          (.ok outOfBoundsMarker, [.getSignaturesForAddress .testnet key 1])
        | some first =>
          match env.getConfirmedTransaction .testnet first.signature with
          | .error e =>
            (.ok (textResponse ("Error getting transaction: " ++ e.render)),
              [.getSignaturesForAddress .testnet key 1,
                .getConfirmedTransaction .testnet first.signature])
          | .ok transaction =>
            (.ok (textResponse (Json.stringify transaction)),
              [.getSignaturesForAddress .testnet key 1,
                .getConfirmedTransaction .testnet first.signature])

/-- Handler of the get-soon-mainnet-last-transaction tool, identical but on
the mainnet connection. -/
def getSoonMainnetLastTransaction (env : Env) (address : String) :
    HandlerResult :=
  match newPublicKey address with
  | .error e =>
    (.ok (textResponse ("Error getting transaction: " ++ e.render)), [])
  | .ok key =>
    match env.getSignaturesForAddress .mainnet key 1 with
    | .error e =>
      (.ok (textResponse ("Error getting transaction: " ++ e.render)),
        [.getSignaturesForAddress .mainnet key 1])
    | .ok signatures =>
      if signatures.length = 0 then
        (.ok (textResponse "No transactions found for this address"),
          [.getSignaturesForAddress .mainnet key 1])
      else
        match signatures[0]? with
        | none =>
          (.ok outOfBoundsMarker, [.getSignaturesForAddress .mainnet key 1])
        | some first =>
          match env.getConfirmedTransaction .mainnet first.signature with
          | .error e =>
            (.ok (textResponse ("Error getting transaction: " ++ e.render)),
              [.getSignaturesForAddress .mainnet key 1,
                .getConfirmedTransaction .mainnet first.signature])
          | .ok transaction =>
            (.ok (textResponse (Json.stringify transaction)),
              [.getSignaturesForAddress .mainnet key 1,
                .getConfirmedTransaction .mainnet first.signature])

/-- Handler of the get-soon-testnet-account-tokens tool: inside a try block,
construct the owner PublicKey, construct the fixed token-program PublicKey,
fetch the token accounts filtered by it, serialize them; any throw is
caught and rendered as an error text block. -/
def getSoonTestnetAccountTokens (env : Env) (address : String) :
    HandlerResult :=
  match newPublicKey address with
  | .error e =>
    (.ok (textResponse ("Error getting tokens: " ++ e.render)), [])
  | .ok owner =>
    match newPublicKey tokenProgramAddress with
    | .error e =>
      (.ok (textResponse ("Error getting tokens: " ++ e.render)), [])
    | .ok programId =>
      match env.getTokenAccountsByOwner .testnet owner programId with
      | .error e =>
        (.ok (textResponse ("Error getting tokens: " ++ e.render)),
          [.getTokenAccountsByOwner .testnet owner programId])
      | .ok tokens =>
        (.ok (textResponse (Json.stringify tokens)),
          [.getTokenAccountsByOwner .testnet owner programId])

/-- Handler of the get-soon-mainnet-account-tokens tool, identical but on
the mainnet connection. -/
def getSoonMainnetAccountTokens (env : Env) (address : String) :
    HandlerResult :=
  match newPublicKey address with
  | .error e =>
    (.ok (textResponse ("Error getting tokens: " ++ e.render)), [])
  | .ok owner =>
    match newPublicKey tokenProgramAddress with
    | .error e =>
      (.ok (textResponse ("Error getting tokens: " ++ e.render)), [])
    | .ok programId =>
      match env.getTokenAccountsByOwner .mainnet owner programId with
      | .error e =>
        (.ok (textResponse ("Error getting tokens: " ++ e.render)),
          [.getTokenAccountsByOwner .mainnet owner programId])
      | .ok tokens =>
        (.ok (textResponse (Json.stringify tokens)),
          [.getTokenAccountsByOwner .mainnet owner programId])

/-- The tool registry the process builds at startup: each tool name mapped
to its handler, in registration order. -/
def registeredTools : List (String × (Env → String → HandlerResult)) :=
  [("get-soon-testnet-balance", getSoonTestnetBalance),
    ("get-soon-testnet-last-transaction", getSoonTestnetLastTransaction),
    ("get-soon-testnet-account-tokens", getSoonTestnetAccountTokens),
    ("get-soon-mainnet-balance", getSoonMainnetBalance),
    ("get-soon-mainnet-last-transaction", getSoonMainnetLastTransaction),
    ("get-soon-mainnet-account-tokens", getSoonMainnetAccountTokens)]

deriving instance DecidableEq for Except

/-- A syntactically valid address: 32 base58 digits of value zero (the
well-known system-program address), decoding to 32 zero bytes. -/
def addr32 : String := "11111111111111111111111111111111"

/-- The PublicKey that addr32 decodes to. -/
def pk32 : PublicKey := ⟨List.replicate 32 0⟩

/-- A malformed address: all characters are base58 digits but it decodes to
fewer than 32 bytes, so the PublicKey constructor throws. -/
def badAddr : String := "bad"

/-- The PublicKey the fixed token-program identifier decodes to. -/
def tokenProgramKey : PublicKey :=
  match newPublicKey tokenProgramAddress with
  | .ok key => key
  | .error _ => ⟨[]⟩

/-- A sample transaction record. -/
def sampleTx : Json := Json.str "tx"

/-- A sample signature-list entry. -/
def sampleSig : SignatureInfo := ⟨"sig1"⟩

/-- An environment where every RPC call succeeds and every address has
exactly one recorded transaction. -/
def sampleEnv : Env where
  getBalance := fun _ _ => .ok 42
  getSignaturesForAddress := fun _ _ _ => .ok [sampleSig]
  getConfirmedTransaction := fun _ _ => .ok sampleTx
  getTokenAccountsByOwner := fun _ _ _ => .ok (Json.arr [])

/-- An environment where every address has no recorded transactions. -/
def emptySigEnv : Env where
  getBalance := fun _ _ => .ok 42
  getSignaturesForAddress := fun _ _ _ => .ok []
  getConfirmedTransaction := fun _ _ => .ok sampleTx
  getTokenAccountsByOwner := fun _ _ _ => .ok (Json.arr [])

/-- An environment where every RPC call throws an Error with message
boom. -/
def errEnv : Env where
  getBalance := fun _ _ => .error (.error "boom")
  getSignaturesForAddress := fun _ _ _ => .error (.error "boom")
  getConfirmedTransaction := fun _ _ => .error (.error "boom")
  getTokenAccountsByOwner := fun _ _ _ => .error (.error "boom")

/-- C4: for every syntactically valid address on which the balance query
succeeds, the balance handler (testnet or mainnet) returns exactly one text
content block whose text is Balance: followed by the numeric balance
returned by the network client. -/
theorem balance_success_formats_text (env : Env) (address : String)
    (key : PublicKey) (balance : Nat)
    (hk : newPublicKey address = .ok key) :
    (env.getBalance .testnet key = .ok balance →
      getSoonTestnetBalance env address =
        (.ok (textResponse ("Balance: " ++ toString balance)),
          [.getBalance .testnet key])) ∧
    (env.getBalance .mainnet key = .ok balance →
      getSoonMainnetBalance env address =
        (.ok (textResponse ("Balance: " ++ toString balance)),
          [.getBalance .mainnet key])) := by
  constructor <;> intro hb <;>
    simp [getSoonTestnetBalance, getSoonMainnetBalance, hk, hb]

/-- Witness for C4: on the sample environment and the valid sample address
the testnet balance handler returns the formatted balance 42. -/
theorem balance_success_formats_text_witness :
    getSoonTestnetBalance sampleEnv addr32 =
      (.ok (textResponse ("Balance: " ++ toString 42)),
        [.getBalance .testnet pk32]) :=
  (balance_success_formats_text sampleEnv addr32 pk32 42 (by decide)).1 rfl

/-- C5: for every input to either balance handler, an error thrown during
address construction or during the balance fetch is not caught: the handler
propagates it, and in particular a malformed address never yields a text
content block from the balance tools. -/
theorem balance_errors_propagate (env : Env) (address : String)
    (e : Thrown) :
    (newPublicKey address = .error e →
      getSoonTestnetBalance env address = (.error e, []) ∧
      getSoonMainnetBalance env address = (.error e, [])) ∧
    (∀ key, newPublicKey address = .ok key →
      (env.getBalance .testnet key = .error e →
        getSoonTestnetBalance env address =
          (.error e, [.getBalance .testnet key])) ∧
      (env.getBalance .mainnet key = .error e →
        getSoonMainnetBalance env address =
          (.error e, [.getBalance .mainnet key]))) := by
  refine ⟨fun hk => ?_, fun key hk => ⟨fun hb => ?_, fun hb => ?_⟩⟩ <;>
    simp [getSoonTestnetBalance, getSoonMainnetBalance, hk] <;>
    simp [hb]

/-- Witness for C5: the malformed address badAddr makes both balance
handlers propagate the PublicKey constructor error. -/
theorem balance_errors_propagate_witness :
    getSoonTestnetBalance sampleEnv badAddr =
      (.error (.error "Invalid public key input"), []) ∧
    getSoonMainnetBalance sampleEnv badAddr =
      (.error (.error "Invalid public key input"), []) :=
  (balance_errors_propagate sampleEnv badAddr
    (.error "Invalid public key input")).1 (by decide)

/-- C2: for every address on which the signature query returns an empty
list, the last-transaction handler (testnet or mainnet) returns exactly one
text content block reading No transactions found for this address, and its
call trace contains no transaction-detail call. -/
theorem lastTransaction_empty_sentinel (env : Env) (address : String)
    (key : PublicKey) (hk : newPublicKey address = .ok key) :
    (env.getSignaturesForAddress .testnet key 1 = .ok [] →
      getSoonTestnetLastTransaction env address =
        (.ok (textResponse "No transactions found for this address"),
          [.getSignaturesForAddress .testnet key 1]) ∧
      ∀ s, .getConfirmedTransaction .testnet s ∉
        (getSoonTestnetLastTransaction env address).2) ∧
    (env.getSignaturesForAddress .mainnet key 1 = .ok [] →
      getSoonMainnetLastTransaction env address =
        (.ok (textResponse "No transactions found for this address"),
          [.getSignaturesForAddress .mainnet key 1]) ∧
      ∀ s, .getConfirmedTransaction .mainnet s ∉
        (getSoonMainnetLastTransaction env address).2) := by
  constructor <;> intro hs <;>
    simp [getSoonTestnetLastTransaction, getSoonMainnetLastTransaction,
      hk, hs]

/-- Witness for C2: on the environment returning an empty signature list
the testnet last-transaction handler returns the sentinel text and issues
no transaction-detail call. -/
theorem lastTransaction_empty_sentinel_witness :
    getSoonTestnetLastTransaction emptySigEnv addr32 =
      (.ok (textResponse "No transactions found for this address"),
        [.getSignaturesForAddress .testnet pk32 1]) ∧
    ∀ s, .getConfirmedTransaction .testnet s ∉
      (getSoonTestnetLastTransaction emptySigEnv addr32).2 :=
  (lastTransaction_empty_sentinel emptySigEnv addr32 pk32 (by decide)).1 rfl

/-- C1: in the last-transaction and account-tokens families (testnet or
mainnet), a throw from any RPC call inside the try block is caught and the
handler returns a single text content block whose text is
Error getting transaction: (resp. Error getting tokens: ) followed by the
rendering of the thrown value. -/
theorem caught_network_error_text (env : Env) (address : String)
    (key : PublicKey) (e : Thrown)
    (hk : newPublicKey address = .ok key) :
    (env.getSignaturesForAddress .testnet key 1 = .error e →
      (getSoonTestnetLastTransaction env address).1 =
        .ok (textResponse ("Error getting transaction: " ++ e.render))) ∧
    (∀ first rest,
      env.getSignaturesForAddress .testnet key 1 = .ok (first :: rest) →
      env.getConfirmedTransaction .testnet first.signature = .error e →
      (getSoonTestnetLastTransaction env address).1 =
        .ok (textResponse ("Error getting transaction: " ++ e.render))) ∧
    (env.getSignaturesForAddress .mainnet key 1 = .error e →
      (getSoonMainnetLastTransaction env address).1 =
        .ok (textResponse ("Error getting transaction: " ++ e.render))) ∧
    (∀ first rest,
      env.getSignaturesForAddress .mainnet key 1 = .ok (first :: rest) →
      env.getConfirmedTransaction .mainnet first.signature = .error e →
      (getSoonMainnetLastTransaction env address).1 =
        .ok (textResponse ("Error getting transaction: " ++ e.render))) ∧
    (∀ programId, newPublicKey tokenProgramAddress = .ok programId →
      env.getTokenAccountsByOwner .testnet key programId = .error e →
      (getSoonTestnetAccountTokens env address).1 =
        .ok (textResponse ("Error getting tokens: " ++ e.render))) ∧
    (∀ programId, newPublicKey tokenProgramAddress = .ok programId →
      env.getTokenAccountsByOwner .mainnet key programId = .error e →
      (getSoonMainnetAccountTokens env address).1 =
        .ok (textResponse ("Error getting tokens: " ++ e.render))) := by
  refine ⟨fun hs => ?_, fun first rest hs htx => ?_, fun hs => ?_,
    fun first rest hs htx => ?_, fun programId hp ht => ?_,
    fun programId hp ht => ?_⟩
  case refine_1 => simp [getSoonTestnetLastTransaction, hk, hs]
  case refine_2 => simp [getSoonTestnetLastTransaction, hk, hs, htx]
  case refine_3 => simp [getSoonMainnetLastTransaction, hk, hs]
  case refine_4 => simp [getSoonMainnetLastTransaction, hk, hs, htx]
  case refine_5 => simp [getSoonTestnetAccountTokens, hk, hp, ht]
  case refine_6 => simp [getSoonMainnetAccountTokens, hk, hp, ht]

/-- Witness for C1: on the environment where every RPC call throws boom the
testnet last-transaction handler returns the error text block. -/
theorem caught_network_error_text_witness :
    (getSoonTestnetLastTransaction errEnv addr32).1 =
      .ok (textResponse
        ("Error getting transaction: " ++ Thrown.render (.error "boom"))) :=
  (caught_network_error_text errEnv addr32 pk32 (.error "boom")
    (by decide)).1 rfl

/-- C3: for every address on which the signature query returns at least one
entry, the last-transaction handler issues the signature query with limit 1
and then exactly one transaction-detail query for the signature of the
first entry, and when that query succeeds it returns one text content block
holding the JSON serialization of the transaction record. -/
theorem lastTransaction_two_calls_serializes (env : Env) (address : String)
    (key : PublicKey) (first : SignatureInfo) (rest : List SignatureInfo)
    (hk : newPublicKey address = .ok key) :
    (env.getSignaturesForAddress .testnet key 1 = .ok (first :: rest) →
      (getSoonTestnetLastTransaction env address).2 =
        [.getSignaturesForAddress .testnet key 1,
          .getConfirmedTransaction .testnet first.signature] ∧
      ∀ tx, env.getConfirmedTransaction .testnet first.signature = .ok tx →
        (getSoonTestnetLastTransaction env address).1 =
          .ok (textResponse (Json.stringify tx))) ∧
    (env.getSignaturesForAddress .mainnet key 1 = .ok (first :: rest) →
      (getSoonMainnetLastTransaction env address).2 =
        [.getSignaturesForAddress .mainnet key 1,
          .getConfirmedTransaction .mainnet first.signature] ∧
      ∀ tx, env.getConfirmedTransaction .mainnet first.signature = .ok tx →
        (getSoonMainnetLastTransaction env address).1 =
          .ok (textResponse (Json.stringify tx))) := by
  constructor <;> intro hs <;> constructor
  case left.left =>
    cases htx : env.getConfirmedTransaction .testnet first.signature <;>
      simp [getSoonTestnetLastTransaction, hk, hs, htx]
  case left.right =>
    intro tx htx
    simp [getSoonTestnetLastTransaction, hk, hs, htx]
  case right.left =>
    cases htx : env.getConfirmedTransaction .mainnet first.signature <;>
      simp [getSoonMainnetLastTransaction, hk, hs, htx]
  case right.right =>
    intro tx htx
    simp [getSoonMainnetLastTransaction, hk, hs, htx]

/-- Witness for C3: on the sample environment the testnet last-transaction
handler issues the two calls in order and returns the serialized sample
transaction. -/
theorem lastTransaction_two_calls_serializes_witness :
    (getSoonTestnetLastTransaction sampleEnv addr32).2 =
      [.getSignaturesForAddress .testnet pk32 1,
        .getConfirmedTransaction .testnet sampleSig.signature] ∧
    (getSoonTestnetLastTransaction sampleEnv addr32).1 =
      .ok (textResponse (Json.stringify sampleTx)) := by
  have h := (lastTransaction_two_calls_serializes sampleEnv addr32 pk32
    sampleSig [] (by decide)).1 rfl
  exact ⟨h.1, h.2 sampleTx rfl⟩

/-- C9: a malformed address string passed to a last-transaction or
account-tokens tool makes the PublicKey constructor throw inside the try
block; the handler catches it and returns the single error text block, and
the thrown value never propagates. -/
theorem malformed_address_caught (env : Env) (address : String)
    (e : Thrown) (hk : newPublicKey address = .error e) :
    getSoonTestnetLastTransaction env address =
      (.ok (textResponse ("Error getting transaction: " ++ e.render)),
        []) ∧
    getSoonMainnetLastTransaction env address =
      (.ok (textResponse ("Error getting transaction: " ++ e.render)),
        []) ∧
    getSoonTestnetAccountTokens env address =
      (.ok (textResponse ("Error getting tokens: " ++ e.render)), []) ∧
    getSoonMainnetAccountTokens env address =
      (.ok (textResponse ("Error getting tokens: " ++ e.render)), []) := by
  simp [getSoonTestnetLastTransaction, getSoonMainnetLastTransaction,
    getSoonTestnetAccountTokens, getSoonMainnetAccountTokens, hk]

/-- Witness for C9: the malformed address badAddr makes the testnet
last-transaction handler return the caught-error text block. -/
theorem malformed_address_caught_witness :
    getSoonTestnetLastTransaction sampleEnv badAddr =
      (.ok (textResponse ("Error getting transaction: " ++
        Thrown.render (.error "Invalid public key input"))), []) :=
  (malformed_address_caught sampleEnv badAddr
    (.error "Invalid public key input") (by decide)).1

/-- Helper: every envelope the testnet balance handler resolves with is a
single text block. -/
theorem getSoonTestnetBalance_ok_shape (env : Env) (address : String)
    (r : ToolResponse)
    (h : (getSoonTestnetBalance env address).1 = .ok r) :
    ∃ s, r = textResponse s := by
  unfold getSoonTestnetBalance at h
  cases hk : newPublicKey address with
  | error e => simp [hk] at h
  | ok key =>
    cases hb : env.getBalance .testnet key with
    | error e => simp [hk, hb] at h
    | ok balance => simp [hk, hb] at h; exact ⟨_, h.symm⟩

/-- Helper: every envelope the mainnet balance handler resolves with is a
single text block. -/
theorem getSoonMainnetBalance_ok_shape (env : Env) (address : String)
    (r : ToolResponse)
    (h : (getSoonMainnetBalance env address).1 = .ok r) :
    ∃ s, r = textResponse s := by
  unfold getSoonMainnetBalance at h
  cases hk : newPublicKey address with
  | error e => simp [hk] at h
  | ok key =>
    cases hb : env.getBalance .mainnet key with
    | error e => simp [hk, hb] at h
    | ok balance => simp [hk, hb] at h; exact ⟨_, h.symm⟩

/-- Helper: every envelope the testnet last-transaction handler resolves
with is a single text block. -/
theorem getSoonTestnetLastTransaction_ok_shape (env : Env)
    (address : String) (r : ToolResponse)
    (h : (getSoonTestnetLastTransaction env address).1 = .ok r) :
    ∃ s, r = textResponse s := by
  unfold getSoonTestnetLastTransaction at h
  cases hk : newPublicKey address with
  | error e => simp [hk] at h; exact ⟨_, h.symm⟩
  | ok key =>
    cases hs : env.getSignaturesForAddress .testnet key 1 with
    | error e => simp [hk, hs] at h; exact ⟨_, h.symm⟩
    | ok signatures =>
      cases signatures with
      | nil => simp [hk, hs] at h; exact ⟨_, h.symm⟩
      | cons first rest =>
        cases htx :
            env.getConfirmedTransaction .testnet first.signature with
        | error e => simp [hk, hs, htx] at h; exact ⟨_, h.symm⟩
        | ok tx => simp [hk, hs, htx] at h; exact ⟨_, h.symm⟩

/-- Helper: every envelope the mainnet last-transaction handler resolves
with is a single text block. -/
theorem getSoonMainnetLastTransaction_ok_shape (env : Env)
    (address : String) (r : ToolResponse)
    (h : (getSoonMainnetLastTransaction env address).1 = .ok r) :
    ∃ s, r = textResponse s := by
  unfold getSoonMainnetLastTransaction at h
  cases hk : newPublicKey address with
  | error e => simp [hk] at h; exact ⟨_, h.symm⟩
  | ok key =>
    cases hs : env.getSignaturesForAddress .mainnet key 1 with
    | error e => simp [hk, hs] at h; exact ⟨_, h.symm⟩
    | ok signatures =>
      cases signatures with
      | nil => simp [hk, hs] at h; exact ⟨_, h.symm⟩
      | cons first rest =>
        cases htx :
            env.getConfirmedTransaction .mainnet first.signature with
        | error e => simp [hk, hs, htx] at h; exact ⟨_, h.symm⟩
        | ok tx => simp [hk, hs, htx] at h; exact ⟨_, h.symm⟩

/-- Helper: every envelope the testnet account-tokens handler resolves with
is a single text block. -/
theorem getSoonTestnetAccountTokens_ok_shape (env : Env) (address : String)
    (r : ToolResponse)
    (h : (getSoonTestnetAccountTokens env address).1 = .ok r) :
    ∃ s, r = textResponse s := by
  unfold getSoonTestnetAccountTokens at h
  cases hk : newPublicKey address with
  | error e => simp [hk] at h; exact ⟨_, h.symm⟩
  | ok owner =>
    cases hp : newPublicKey tokenProgramAddress with
    | error e => simp [hk, hp] at h; exact ⟨_, h.symm⟩
    | ok programId =>
      cases ht : env.getTokenAccountsByOwner .testnet owner programId with
      | error e => simp [hk, hp, ht] at h; exact ⟨_, h.symm⟩
      | ok tokens => simp [hk, hp, ht] at h; exact ⟨_, h.symm⟩

/-- Helper: every envelope the mainnet account-tokens handler resolves with
is a single text block. -/
theorem getSoonMainnetAccountTokens_ok_shape (env : Env) (address : String)
    (r : ToolResponse)
    (h : (getSoonMainnetAccountTokens env address).1 = .ok r) :
    ∃ s, r = textResponse s := by
  unfold getSoonMainnetAccountTokens at h
  cases hk : newPublicKey address with
  | error e => simp [hk] at h; exact ⟨_, h.symm⟩
  | ok owner =>
    cases hp : newPublicKey tokenProgramAddress with
    | error e => simp [hk, hp] at h; exact ⟨_, h.symm⟩
    | ok programId =>
      cases ht : env.getTokenAccountsByOwner .mainnet owner programId with
      | error e => simp [hk, hp, ht] at h; exact ⟨_, h.symm⟩
      | ok tokens => simp [hk, hp, ht] at h; exact ⟨_, h.symm⟩

/-- C7: whenever any registered tool handler resolves with a response
envelope (success, empty-result or caught-error path), that envelope holds
exactly one content block, its kind tag is text, and its payload is a
string (the text field of the block). -/
theorem response_single_text_block (env : Env) (address : String) :
    ∀ p ∈ registeredTools, ∀ r, (p.2 env address).1 = .ok r →
      r.content.length = 1 ∧ ∀ b ∈ r.content, b.type = "text" := by
  intro p hp r h
  simp only [registeredTools, List.mem_cons, List.not_mem_nil,
    or_false] at hp
  rcases hp with rfl | rfl | rfl | rfl | rfl | rfl
  · obtain ⟨s, rfl⟩ := getSoonTestnetBalance_ok_shape env address r h
    exact ⟨rfl, by simp [textResponse]⟩
  · obtain ⟨s, rfl⟩ :=
      getSoonTestnetLastTransaction_ok_shape env address r h
    exact ⟨rfl, by simp [textResponse]⟩
  · obtain ⟨s, rfl⟩ := getSoonTestnetAccountTokens_ok_shape env address r h
    exact ⟨rfl, by simp [textResponse]⟩
  · obtain ⟨s, rfl⟩ := getSoonMainnetBalance_ok_shape env address r h
    exact ⟨rfl, by simp [textResponse]⟩
  · obtain ⟨s, rfl⟩ :=
      getSoonMainnetLastTransaction_ok_shape env address r h
    exact ⟨rfl, by simp [textResponse]⟩
  · obtain ⟨s, rfl⟩ := getSoonMainnetAccountTokens_ok_shape env address r h
    exact ⟨rfl, by simp [textResponse]⟩

/-- Witness for C7: the testnet balance handler on the sample environment
resolves with the Balance: 42 envelope, which has one text block. -/
theorem response_single_text_block_witness :
    (textResponse ("Balance: " ++ toString 42)).content.length = 1 ∧
    ∀ b ∈ (textResponse ("Balance: " ++ toString 42)).content,
      b.type = "text" :=
  response_single_text_block sampleEnv addr32
    ("get-soon-testnet-balance", getSoonTestnetBalance)
    (List.Mem.head _) (textResponse ("Balance: " ++ toString 42)) rfl

/-- C10: the unchecked access signatures[0] in the two last-transaction
handlers is always in bounds: the branch guarding it has already returned
on a length-zero list, so the out-of-bounds marker outcome is
unreachable. -/
theorem first_signature_in_bounds (env : Env) (address : String) :
    (getSoonTestnetLastTransaction env address).1 ≠
      .ok outOfBoundsMarker ∧
    (getSoonMainnetLastTransaction env address).1 ≠
      .ok outOfBoundsMarker := by
  constructor <;> intro h
  · obtain ⟨s, hs⟩ :=
      getSoonTestnetLastTransaction_ok_shape env address _ h
    simp [outOfBoundsMarker, textResponse] at hs
  · obtain ⟨s, hs⟩ :=
      getSoonMainnetLastTransaction_ok_shape env address _ h
    simp [outOfBoundsMarker, textResponse] at hs

/-- C6: every token-account query either account-tokens handler issues
carries as its filter exactly the PublicKey decoded from the fixed
token-program identifier TokenkegQfeZyiNwAJbNbGKPFXCWuBvf9Ss623VQ5DA,
whatever the input and the network variant. -/
theorem token_filter_fixed_program (env : Env) (address : String) :
    (∀ net owner programId,
      RpcCall.getTokenAccountsByOwner net owner programId ∈
        (getSoonTestnetAccountTokens env address).2 →
      newPublicKey tokenProgramAddress = .ok programId) ∧
    (∀ net owner programId,
      RpcCall.getTokenAccountsByOwner net owner programId ∈
        (getSoonMainnetAccountTokens env address).2 →
      newPublicKey tokenProgramAddress = .ok programId) := by
  constructor <;> intro net owner programId hmem
  · unfold getSoonTestnetAccountTokens at hmem
    cases hk : newPublicKey address with
    | error e => simp [hk] at hmem
    | ok owner2 =>
      cases hp : newPublicKey tokenProgramAddress with
      | error e => simp [hk, hp] at hmem
      | ok programId2 =>
        cases ht :
            env.getTokenAccountsByOwner .testnet owner2 programId2 with
        | error e =>
          simp [hk, hp, ht] at hmem
          rw [hmem.2.2]
        | ok tokens =>
          simp [hk, hp, ht] at hmem
          rw [hmem.2.2]
  · unfold getSoonMainnetAccountTokens at hmem
    cases hk : newPublicKey address with
    | error e => simp [hk] at hmem
    | ok owner2 =>
      cases hp : newPublicKey tokenProgramAddress with
      | error e => simp [hk, hp] at hmem
      | ok programId2 =>
        cases ht :
            env.getTokenAccountsByOwner .mainnet owner2 programId2 with
        | error e =>
          simp [hk, hp, ht] at hmem
          rw [hmem.2.2]
        | ok tokens =>
          simp [hk, hp, ht] at hmem
          rw [hmem.2.2]

/-- Witness for C6: on the sample environment the testnet account-tokens
handler issues its query filtered by the decoded token-program key. -/
theorem token_filter_fixed_program_witness :
    RpcCall.getTokenAccountsByOwner .testnet pk32 tokenProgramKey ∈
      (getSoonTestnetAccountTokens sampleEnv addr32).2 ∧
    newPublicKey tokenProgramAddress = .ok tokenProgramKey :=
  ⟨by decide, (token_filter_fixed_program sampleEnv addr32).1 .testnet
    pk32 tokenProgramKey (by decide)⟩

/-- C8: every RPC call a testnet-named tool handler issues goes to the
testnet endpoint and every RPC call a mainnet-named tool handler issues
goes to the mainnet endpoint; no invocation calls the other network. -/
theorem no_cross_network_calls (env : Env) (address : String) :
    (∀ c ∈ (getSoonTestnetBalance env address).2, c.net = .testnet) ∧
    (∀ c ∈ (getSoonTestnetLastTransaction env address).2,
      c.net = .testnet) ∧
    (∀ c ∈ (getSoonTestnetAccountTokens env address).2,
      c.net = .testnet) ∧
    (∀ c ∈ (getSoonMainnetBalance env address).2, c.net = .mainnet) ∧
    (∀ c ∈ (getSoonMainnetLastTransaction env address).2,
      c.net = .mainnet) ∧
    (∀ c ∈ (getSoonMainnetAccountTokens env address).2,
      c.net = .mainnet) := by
  refine ⟨?_, ?_, ?_, ?_, ?_, ?_⟩ <;> intro c hc
  · unfold getSoonTestnetBalance at hc
    cases hk : newPublicKey address with
    | error e => simp [hk] at hc
    | ok key =>
      cases hb : env.getBalance .testnet key with
      | error e => simp [hk, hb] at hc; subst hc; rfl
      | ok balance => simp [hk, hb] at hc; subst hc; rfl
  · unfold getSoonTestnetLastTransaction at hc
    cases hk : newPublicKey address with
    | error e => simp [hk] at hc
    | ok key =>
      cases hs : env.getSignaturesForAddress .testnet key 1 with
      | error e => simp [hk, hs] at hc; subst hc; rfl
      | ok signatures =>
        cases signatures with
        | nil => simp [hk, hs] at hc; subst hc; rfl
        | cons first rest =>
          cases htx :
              env.getConfirmedTransaction .testnet first.signature with
          | error e =>
            simp [hk, hs, htx] at hc
            rcases hc with rfl | rfl <;> rfl
          | ok tx =>
            simp [hk, hs, htx] at hc
            rcases hc with rfl | rfl <;> rfl
  · unfold getSoonTestnetAccountTokens at hc
    cases hk : newPublicKey address with
    | error e => simp [hk] at hc
    | ok owner =>
      cases hp : newPublicKey tokenProgramAddress with
      | error e => simp [hk, hp] at hc
      | ok programId =>
        cases ht :
            env.getTokenAccountsByOwner .testnet owner programId with
        | error e => simp [hk, hp, ht] at hc; subst hc; rfl
        | ok tokens => simp [hk, hp, ht] at hc; subst hc; rfl
  · unfold getSoonMainnetBalance at hc
    cases hk : newPublicKey address with
    | error e => simp [hk] at hc
    | ok key =>
      cases hb : env.getBalance .mainnet key with
      | error e => simp [hk, hb] at hc; subst hc; rfl
      | ok balance => simp [hk, hb] at hc; subst hc; rfl
  · unfold getSoonMainnetLastTransaction at hc
    cases hk : newPublicKey address with
    | error e => simp [hk] at hc
    | ok key =>
      cases hs : env.getSignaturesForAddress .mainnet key 1 with
      | error e => simp [hk, hs] at hc; subst hc; rfl
      | ok signatures =>
        cases signatures with
        | nil => simp [hk, hs] at hc; subst hc; rfl
        | cons first rest =>
          cases htx :
              env.getConfirmedTransaction .mainnet first.signature with
          | error e =>
            simp [hk, hs, htx] at hc
            rcases hc with rfl | rfl <;> rfl
          | ok tx =>
            simp [hk, hs, htx] at hc
            rcases hc with rfl | rfl <;> rfl
  · unfold getSoonMainnetAccountTokens at hc
    cases hk : newPublicKey address with
    | error e => simp [hk] at hc
    | ok owner =>
      cases hp : newPublicKey tokenProgramAddress with
      | error e => simp [hk, hp] at hc
      | ok programId =>
        cases ht :
            env.getTokenAccountsByOwner .mainnet owner programId with
        | error e => simp [hk, hp, ht] at hc; subst hc; rfl
        | ok tokens => simp [hk, hp, ht] at hc; subst hc; rfl

/-- Witness for C8: the balance call the testnet balance handler issues on
the sample environment goes to the testnet endpoint. -/
theorem no_cross_network_calls_witness :
    (RpcCall.getBalance .testnet pk32).net = .testnet :=
  (no_cross_network_calls sampleEnv addr32).1
    (RpcCall.getBalance .testnet pk32) (by decide)

/-- Witness for C10: on the sample environment and the valid sample address
the testnet last-transaction handler does not produce the out-of-bounds
marker. -/
theorem first_signature_in_bounds_witness :
    (getSoonTestnetLastTransaction sampleEnv addr32).1 ≠
      .ok outOfBoundsMarker :=
  (first_signature_in_bounds sampleEnv addr32).1
